import Mathlib

/-!
Shallow embedding of `src/data.js` from the twitter-interaction-circles
repository.

The JS module builds, for a subject account, a mapping from account id to an
interaction record (counts of replies, retweets, likes, mentions), scores each
record with fixed weights, sorts descending by score, truncates to the sum of
the requested layer sizes, attaches avatars, and splits the result into layers
with three hard-coded `splice` calls.

Modelling choices (JS → Lean):
  * a JS object keyed by `user_id` is modelled as an association list
    `List (String × Record)` in insertion order; property lookup is
    `List.lookup` (own properties only);
  * `Array.prototype.includes` on the follower array is `List.contains`;
  * JS string truthiness (`!!s`: null/undefined and "" are falsy) is
    `jsTruthy`;
  * the ES2019-stable `sort` with comparator `(a, b) => b.total - a.total`
    is `List.mergeSort` with the Boolean order `b.total ≤ a.total`;
  * numeric totals (sums of multiples of 0.5, exact in IEEE doubles for the
    magnitudes involved) are rationals `ℚ`;
  * `head.splice(0, n)` is the pair `(take n, drop n)`; `splice(0, undefined)`
    (when `layers[i]` is out of range) deletes 0 elements, hence
    `layers.getD i 0`;
  * the avatar object returned by `getAvatars` is an association list; the JS
    assignment `i.avatar = avatars[i.id]` (undefined when absent) is an
    `Option` field.
-/

namespace TwitterCircles

/-- The interaction types counted by `addRecord` (`type` argument). -/
inductive IType where
  | reply
  | retweet
  | like
  | mention
deriving DecidableEq

/-- The per-account record stored in the `interactions` object:
`{screen_name, id, reply, retweet, like, mention}`. -/
structure Record where
  screen_name : String
  id : String
  reply : Nat
  retweet : Nat
  like : Nat
  mention : Nat
deriving DecidableEq

/-- Read one count field of a record. -/
def Record.count (r : Record) : IType → Nat
  | .reply => r.reply
  | .retweet => r.retweet
  | .like => r.like
  | .mention => r.mention

/-- The update `interactions[user_id][type] += 1` on one record. -/
def Record.inc (r : Record) : IType → Record
  | .reply => { r with reply := r.reply + 1 }
  | .retweet => { r with retweet := r.retweet + 1 }
  | .like => { r with like := r.like + 1 }
  | .mention => { r with mention := r.mention + 1 }

/-- The object literal `{screen_name, id: user_id, reply: 0, retweet: 0,
like: 0, mention: 0, [type]: 1}` created for a new user. -/
def freshRecord (screen_name user_id : String) (type : IType) : Record :=
  Record.inc
    { screen_name := screen_name, id := user_id,
      reply := 0, retweet := 0, like := 0, mention := 0 } type

/-- The `interactions` object: association list keyed by `user_id`, in
insertion order. -/
abbrev Interactions := List (String × Record)

/-- In-place update `interactions[user_id][type] += 1`: increments the (unique,
hence first) entry whose key is `user_id`. -/
def updateFirst : Interactions → String → IType → Interactions
  | [], _, _ => []
  | p :: rest, user_id, type =>
    if p.1 = user_id then (p.1, p.2.inc type) :: rest
    else p :: updateFirst rest user_id type

/-- Function `addRecord` from `data.js`: if the user already has a record, increment the
count of `type`; otherwise append a fresh record with that count at 1. -/
def addRecord (interactions : Interactions) (screen_name user_id : String)
    (type : IType) : Interactions :=
  if (interactions.lookup user_id).isSome then
    updateFirst interactions user_id type
  else
    interactions ++ [(user_id, freshRecord screen_name user_id type)]

/-- A post whose only consulted field is its author `user`
(`{screen_name, id_str}`); the shape of mention and like items. -/
structure UserObj where
  screen_name : String
  id_str : String
deriving DecidableEq

/-- A mention or like item. -/
structure SimplePost where
  user : UserObj
deriving DecidableEq

/-- The `retweeted_status` payload; its `user` may itself be absent. -/
structure RetweetedStatus where
  user : Option UserObj
deriving DecidableEq

/-- A timeline item: optionally a reply (`in_reply_to_user_id_str`,
`in_reply_to_screen_name`) and/or a retweet (`retweeted_status`).
`in_reply_to_screen_name` is only consulted when the reply id is truthy. -/
structure TimelinePost where
  in_reply_to_user_id_str : Option String
  in_reply_to_screen_name : String
  retweeted_status : Option RetweetedStatus
deriving DecidableEq

/-- JS truthiness of a nullable string: null/undefined and `""` are falsy. -/
def jsTruthy : Option String → Bool
  | none => false
  | some s => s ≠ ""

/-- JS `String.prototype.toLowerCase()`, modelled as per-character lowercasing
(structurally recursive, so concrete examples evaluate in the kernel). -/
def jsToLowerCase (s : String) : String := ⟨s.data.map Char.toLower⟩

/-- The author of the retweeted post, when present:
`post.retweeted_status && post.retweeted_status.user`. -/
def rtUser (post : TimelinePost) : Option UserObj :=
  post.retweeted_status.bind (fun rs => rs.user)

/-- One iteration of a counting loop: record the candidate extracted from
`post` when the guard accepts it. -/
def recordStep (guard : π → Bool) (candSn candId : π → String) (type : IType)
    (interactions : Interactions) (post : π) : Interactions :=
  if guard post then addRecord interactions (candSn post) (candId post) type
  else interactions

/-- A whole counting loop (`for (const post of posts) ...`). -/
def recordPass (guard : π → Bool) (candSn candId : π → String) (type : IType)
    (interactions : Interactions) (posts : List π) : Interactions :=
  posts.foldl (recordStep guard candSn candId type) interactions

/-- Filter of `countMentions`:
`post.user.screen_name.toLowerCase() !== screen_name &&
 followers.includes(post.user.id_str)`. -/
def mentionGuard (screen_name : String) (followers : List String)
    (post : SimplePost) : Bool :=
  jsToLowerCase post.user.screen_name != screen_name
    && followers.contains post.user.id_str

/-- Filter of `countLikes` (same shape as `mentionGuard`). -/
def likeGuard (screen_name : String) (followers : List String)
    (post : SimplePost) : Bool :=
  jsToLowerCase post.user.screen_name != screen_name
    && followers.contains post.user.id_str

/-- Filter of `countReplies`:
`!!post.in_reply_to_user_id_str &&
 post.in_reply_to_screen_name.toLowerCase() !== screen_name &&
 followers.includes(post.in_reply_to_user_id_str)`. -/
def replyGuard (screen_name : String) (followers : List String)
    (post : TimelinePost) : Bool :=
  jsTruthy post.in_reply_to_user_id_str
    && jsToLowerCase post.in_reply_to_screen_name != screen_name
    && followers.contains (post.in_reply_to_user_id_str.getD "")

/-- Filter of `countRetweets`:
`post.retweeted_status && post.retweeted_status.user &&
 post.retweeted_status.user.screen_name.toLowerCase() !== screen_name &&
 followers.includes(post.retweeted_status.user.id_str)`. -/
def retweetGuard (screen_name : String) (followers : List String)
    (post : TimelinePost) : Bool :=
  match rtUser post with
  | some u => jsToLowerCase u.screen_name != screen_name
      && followers.contains u.id_str
  | none => false

/-- Function `countMentions` from `data.js` (the global follower array is passed
explicitly). -/
def countMentions (interactions : Interactions) (mentions : List SimplePost)
    (screen_name : String) (followers : List String) : Interactions :=
  recordPass (mentionGuard screen_name followers)
    (fun p => p.user.screen_name) (fun p => p.user.id_str) .mention
    interactions mentions

/-- Function `countLikes` from `data.js`. -/
def countLikes (interactions : Interactions) (likes : List SimplePost)
    (screen_name : String) (followers : List String) : Interactions :=
  recordPass (likeGuard screen_name followers)
    (fun p => p.user.screen_name) (fun p => p.user.id_str) .like
    interactions likes

/-- Function `countReplies` from `data.js`; the candidate id is the (truthy, hence
present) `in_reply_to_user_id_str`. -/
def countReplies (interactions : Interactions) (timeline : List TimelinePost)
    (screen_name : String) (followers : List String) : Interactions :=
  recordPass (replyGuard screen_name followers)
    (fun p => p.in_reply_to_screen_name)
    (fun p => p.in_reply_to_user_id_str.getD "") .reply
    interactions timeline

/-- Function `countRetweets` from `data.js`; the candidate is the retweeted author. -/
def countRetweets (interactions : Interactions) (timeline : List TimelinePost)
    (screen_name : String) (followers : List String) : Interactions :=
  recordPass (retweetGuard screen_name followers)
    (fun p => ((rtUser p).map (fun u => u.screen_name)).getD "")
    (fun p => ((rtUser p).map (fun u => u.id_str)).getD "") .retweet
    interactions timeline

/-- The recording phase of `getInteractions`: the four passes in source
order (mentions, replies, retweets, likes) starting from `{}`. -/
def buildInteractions (screen_name : String) (followers : List String)
    (mentions : List SimplePost) (timeline : List TimelinePost)
    (liked : List SimplePost) : Interactions :=
  let interactions : Interactions := []
  let interactions := countMentions interactions mentions screen_name followers
  let interactions := countReplies interactions timeline screen_name followers
  let interactions := countRetweets interactions timeline screen_name followers
  countLikes interactions liked screen_name followers

/-- One entry of the `tally` array: `{id, screen_name, total}`. -/
structure Tally where
  id : String
  screen_name : String
  total : ℚ
deriving DecidableEq

/-- The scoring accumulation from `getInteractions`:
`total = 0; total += like*0.5; total += reply*1; total += retweet*1.5;
total += mention*2`. -/
def scoreTotal (interaction : Record) : ℚ :=
  0 + (interaction.like : ℚ) * (1 / 2) + (interaction.reply : ℚ) * 1
    + (interaction.retweet : ℚ) * (3 / 2) + (interaction.mention : ℚ) * 2

/-- Building the `tally` array from `Object.entries(interactions)` (modelled
in insertion order). -/
def makeTally (interactions : Interactions) : List Tally :=
  interactions.map (fun kv =>
    { id := kv.2.id, screen_name := kv.2.screen_name, total := scoreTotal kv.2 })

/-- The comparator `(a, b) => b.total - a.total` as a Boolean order: `a` may
stay before `b` exactly when the comparator is `≤ 0`. -/
def descTotal (a b : Tally) : Bool := b.total ≤ a.total

/-- The sum `maxCount = layers.reduce((total, current) => total + current, 0)`. -/
def maxCountOf (layers : List Nat) : Nat :=
  layers.foldl (fun total current => total + current) 0

/-- The ranking `tally.sort((a, b) => b.total - a.total)` followed by
`tally.slice(0, maxCount)`: stable descending sort, then truncation. -/
def rankTruncate (tally : List Tally) (layers : List Nat) : List Tally :=
  (tally.mergeSort descTotal).take (maxCountOf layers)

/-- A tally entry after avatar attachment (`i.avatar = avatars[i.id]`). -/
structure Enriched where
  id : String
  screen_name : String
  total : ℚ
  avatar : Option String
deriving DecidableEq

/-- The avatar-attachment loop over `head`, given the mapping returned by
`getAvatars`. -/
def attachAvatars (head : List Tally) (avatars : List (String × String)) :
    List Enriched :=
  head.map (fun t =>
    { id := t.id, screen_name := t.screen_name, total := t.total,
      avatar := avatars.lookup t.id })

/-- The call `head.splice(0, deleteCount)`: the removed elements and the remaining
array. -/
def splice (l : List α) (deleteCount : Nat) : List α × List α :=
  (l.take deleteCount, l.drop deleteCount)

/-- The final partition of `getInteractions`: exactly three `splice` calls,
`head.splice(0, layers[0])`, `head.splice(0, layers[1])`,
`head.splice(0, layers[2])`; an out-of-range `layers[i]` is `undefined` and
`splice(0, undefined)` removes nothing, hence `getD i 0`. -/
def splitLayers (head : List Enriched) (layers : List Nat) :
    List (List Enriched) :=
  let s0 := splice head (layers.getD 0 0)
  let s1 := splice s0.2 (layers.getD 1 0)
  let s2 := splice s1.2 (layers.getD 2 0)
  [s0.1, s1.1, s2.1]

/-- The pure core of `getInteractions`: the fetched inputs (followers,
mentions, timeline, likes, and the avatar mapping returned for the head ids)
are parameters; the network layer is the excluded collaborator. -/
def getInteractions (screen_name : String) (layers : List Nat)
    (followers : List String) (mentions : List SimplePost)
    (timeline : List TimelinePost) (liked : List SimplePost)
    (avatars : List (String × String)) : List (List Enriched) :=
  let interactions := buildInteractions screen_name followers mentions timeline liked
  let tally := makeTally interactions
  let head := rankTruncate tally layers
  let enriched := attachAvatars head avatars
  splitLayers enriched layers

/-! Concrete sample values used by closed counterexamples and witnesses. -/

/-- Sample tally entry with total 3. -/
def tallyA : Tally := { id := "a", screen_name := "a", total := 3 }

/-- Sample tally entry with total 7. -/
def tallyB : Tally := { id := "b", screen_name := "b", total := 7 }

/-- Sample enriched entry. -/
def enr (s : String) : Enriched :=
  { id := s, screen_name := s, total := 1, avatar := none }

/-- Sample record: 1 reply, 2 likes. -/
def recA : Record :=
  { screen_name := "u1", id := "1", reply := 1, retweet := 0, like := 2,
    mention := 0 }

/-- Sample mention whose author handle differs from the subject's only by
case. -/
def selfMention : SimplePost :=
  { user := { screen_name := "alice", id_str := "1" } }

/-- Sample mention authored by an upper-cased spelling of the subject. -/
def mentionSelfCased : SimplePost :=
  { user := { screen_name := "ALICE", id_str := "1" } }

/-- Sample mention by account 1 with handle spelled `bob`. -/
def mentionBobLower : SimplePost :=
  { user := { screen_name := "bob", id_str := "1" } }

/-- Sample mention by account 1 with handle spelled `BOB`. -/
def mentionBobUpper : SimplePost :=
  { user := { screen_name := "BOB", id_str := "1" } }

/-- One of the four counting passes, as a name; used to quantify over the
order in which the four collections are processed. -/
inductive Pass where
  | mention
  | reply
  | retweet
  | like
deriving DecidableEq

/-- Run one named counting pass over its collection. -/
def applyPass (screen_name : String) (followers : List String)
    (mentions : List SimplePost) (timeline : List TimelinePost)
    (liked : List SimplePost) (interactions : Interactions) :
    Pass → Interactions
  | .mention => countMentions interactions mentions screen_name followers
  | .reply => countReplies interactions timeline screen_name followers
  | .retweet => countRetweets interactions timeline screen_name followers
  | .like => countLikes interactions liked screen_name followers

/-- The recording phase run with the four passes in an arbitrary order; the
source's `buildInteractions` is the instance with order
mention, reply, retweet, like. -/
def buildInOrder (screen_name : String) (followers : List String)
    (mentions : List SimplePost) (timeline : List TimelinePost)
    (liked : List SimplePost) (order : List Pass) : Interactions :=
  order.foldl (applyPass screen_name followers mentions timeline liked) []

/-- How many increments one pass contributes to key `u` and type `s`. -/
def passContribution (screen_name : String) (followers : List String)
    (mentions : List SimplePost) (timeline : List TimelinePost)
    (liked : List SimplePost) (u : String) (s : IType) : Pass → Nat
  | .mention => if s = .mention then
      mentions.countP (fun p =>
        mentionGuard screen_name followers p && (p.user.id_str == u)) else 0
  | .reply => if s = .reply then
      timeline.countP (fun p =>
        replyGuard screen_name followers p
          && (p.in_reply_to_user_id_str.getD "" == u)) else 0
  | .retweet => if s = .retweet then
      timeline.countP (fun p =>
        retweetGuard screen_name followers p
          && (((rtUser p).map (fun v => v.id_str)).getD "" == u)) else 0
  | .like => if s = .like then
      liked.countP (fun p =>
        likeGuard screen_name followers p && (p.user.id_str == u)) else 0

/-- Whether one pass accepts some item whose candidate id is `u`. -/
def passHasKey (screen_name : String) (followers : List String)
    (mentions : List SimplePost) (timeline : List TimelinePost)
    (liked : List SimplePost) (u : String) : Pass → Bool
  | .mention => mentions.any (fun p =>
      mentionGuard screen_name followers p && (p.user.id_str == u))
  | .reply => timeline.any (fun p =>
      replyGuard screen_name followers p
        && (p.in_reply_to_user_id_str.getD "" == u))
  | .retweet => timeline.any (fun p =>
      retweetGuard screen_name followers p
        && (((rtUser p).map (fun v => v.id_str)).getD "" == u))
  | .like => liked.any (fun p =>
      likeGuard screen_name followers p && (p.user.id_str == u))

/-- Modelled from the spec: a mention or like item is eligible and non-self
when its author is a follower and the author's handle, compared
case-insensitively on BOTH sides, differs from the subject's handle. -/
def specNonSelfFollower (screen_name : String) (followers : List String)
    (post : SimplePost) : Bool :=
  (jsToLowerCase post.user.screen_name != jsToLowerCase screen_name)
    && followers.contains post.user.id_str

/-- Modelled from the spec: an eligible, non-self (case-insensitive on both
sides) reply item. -/
def specReplyItem (screen_name : String) (followers : List String)
    (post : TimelinePost) : Bool :=
  jsTruthy post.in_reply_to_user_id_str
    && (jsToLowerCase post.in_reply_to_screen_name
          != jsToLowerCase screen_name)
    && followers.contains (post.in_reply_to_user_id_str.getD "")

/-- Modelled from the spec: an eligible, non-self (case-insensitive on both
sides) retweet item. -/
def specRetweetItem (screen_name : String) (followers : List String)
    (post : TimelinePost) : Bool :=
  match rtUser post with
  | some u => (jsToLowerCase u.screen_name != jsToLowerCase screen_name)
      && followers.contains u.id_str
  | none => false

/-- The count of `type` stored for `user_id` in the mapping (0 when the key is
absent). -/
def getCount (m : Interactions) (user_id : String) (type : IType) : Nat :=
  ((m.lookup user_id).map (fun r => r.count type)).getD 0

/-- The sum of the `type` counts over all records of the mapping. -/
def sumCount (m : Interactions) (type : IType) : Nat :=
  (m.map (fun kv => kv.2.count type)).sum

/-! ### Basic record and association-list lemmas -/

theorem count_inc (r : Record) (t u : IType) :
    (r.inc t).count u = r.count u + (if u = t then 1 else 0) := by
  cases t <;> cases u <;> simp [Record.inc, Record.count]

theorem screen_name_inc (r : Record) (t : IType) :
    (r.inc t).screen_name = r.screen_name := by
  cases t <;> rfl

theorem id_inc (r : Record) (t : IType) : (r.inc t).id = r.id := by
  cases t <;> rfl

theorem freshRecord_count (sn uid : String) (t u : IType) :
    (freshRecord sn uid t).count u = if u = t then 1 else 0 := by
  cases t <;> cases u <;> simp [freshRecord, Record.inc, Record.count]

theorem lookup_cons_eq (k u : String) (r : Record) (rest : Interactions) :
    ((k, r) :: rest).lookup u = if u = k then some r else rest.lookup u := by
  by_cases h : u = k
  · subst h
    simp [List.lookup_cons]
  · have hb : (u == k) = false := by simp [h]
    simp [List.lookup_cons, hb, h]

theorem updateFirst_cons (k : String) (rec : Record) (rest : Interactions)
    (uid : String) (t : IType) :
    updateFirst ((k, rec) :: rest) uid t =
      if k = uid then (k, rec.inc t) :: rest
      else (k, rec) :: updateFirst rest uid t := rfl

theorem lookup_updateFirst_self (m : Interactions) (uid : String) (t : IType)
    (r : Record) (h : m.lookup uid = some r) :
    (updateFirst m uid t).lookup uid = some (r.inc t) := by
  induction m with
  | nil => simp at h
  | cons p rest ih =>
    obtain ⟨k, rec⟩ := p
    by_cases hk : k = uid
    · subst hk
      rw [lookup_cons_eq, if_pos rfl] at h
      obtain rfl : rec = r := by injection h
      rw [updateFirst_cons, if_pos rfl, lookup_cons_eq, if_pos rfl]
    · rw [lookup_cons_eq, if_neg (fun hh => hk hh.symm)] at h
      rw [updateFirst_cons, if_neg hk, lookup_cons_eq,
        if_neg (fun hh => hk hh.symm)]
      exact ih h

theorem lookup_updateFirst_other (m : Interactions) (uid u : String)
    (t : IType) (h : u ≠ uid) :
    (updateFirst m uid t).lookup u = m.lookup u := by
  induction m with
  | nil => rfl
  | cons p rest ih =>
    obtain ⟨k, rec⟩ := p
    by_cases hk : k = uid
    · subst hk
      rw [updateFirst_cons, if_pos rfl, lookup_cons_eq, lookup_cons_eq,
        if_neg h, if_neg h]
    · rw [updateFirst_cons, if_neg hk, lookup_cons_eq, lookup_cons_eq, ih]

theorem sumCount_updateFirst (m : Interactions) (uid : String) (t u : IType)
    (h : (m.lookup uid).isSome) :
    sumCount (updateFirst m uid t) u = sumCount m u + (if u = t then 1 else 0) := by
  induction m with
  | nil => simp at h
  | cons p rest ih =>
    obtain ⟨k, rec⟩ := p
    by_cases hk : k = uid
    · subst hk
      rw [updateFirst_cons, if_pos rfl]
      simp only [sumCount, List.map_cons, List.sum_cons]
      rw [count_inc]
      omega
    · rw [lookup_cons_eq, if_neg (fun hh => hk hh.symm)] at h
      rw [updateFirst_cons, if_neg hk]
      simp only [sumCount, List.map_cons, List.sum_cons]
      have := ih h
      simp only [sumCount] at this
      omega

/-! ### `addRecord` lemmas -/

theorem lookup_addRecord_some (m : Interactions) (sn uid : String) (t : IType)
    (r : Record) (h : m.lookup uid = some r) :
    (addRecord m sn uid t).lookup uid = some (r.inc t) := by
  rw [addRecord, if_pos (by simp [h])]
  exact lookup_updateFirst_self m uid t r h

theorem lookup_addRecord_none (m : Interactions) (sn uid : String) (t : IType)
    (h : m.lookup uid = none) :
    (addRecord m sn uid t).lookup uid = some (freshRecord sn uid t) := by
  rw [addRecord, if_neg (by simp [h]), List.lookup_append, h]
  simp

theorem lookup_addRecord_other (m : Interactions) (sn uid : String)
    (t : IType) (u : String) (h : u ≠ uid) :
    (addRecord m sn uid t).lookup u = m.lookup u := by
  by_cases hs : (m.lookup uid).isSome
  · rw [addRecord, if_pos hs]
    exact lookup_updateFirst_other m uid u t h
  · rw [addRecord, if_neg hs, List.lookup_append, lookup_cons_eq, if_neg h]
    simp

theorem getCount_addRecord (m : Interactions) (sn uid : String) (t : IType)
    (u : String) (s : IType) :
    getCount (addRecord m sn uid t) u s =
      getCount m u s + (if u = uid ∧ s = t then 1 else 0) := by
  by_cases hu : u = uid
  · subst hu
    cases h : m.lookup u with
    | some r =>
      rw [getCount, lookup_addRecord_some m sn u t r h, getCount, h]
      simp [count_inc]
    | none =>
      rw [getCount, lookup_addRecord_none m sn u t h, getCount, h]
      simp [freshRecord_count]
  · rw [getCount, lookup_addRecord_other m sn uid t u hu, getCount]
    simp [hu]

theorem sumCount_addRecord (m : Interactions) (sn uid : String) (t s : IType) :
    sumCount (addRecord m sn uid t) s = sumCount m s + (if s = t then 1 else 0) := by
  by_cases hs : (m.lookup uid).isSome
  · rw [addRecord, if_pos hs]
    exact sumCount_updateFirst m uid t s hs
  · rw [addRecord, if_neg hs]
    simp [sumCount, freshRecord_count]

theorem isSome_addRecord (m : Interactions) (sn uid : String) (t : IType)
    (u : String) :
    ((addRecord m sn uid t).lookup u).isSome =
      ((m.lookup u).isSome || (uid == u)) := by
  by_cases hu : u = uid
  · subst hu
    cases h : m.lookup u with
    | some r => rw [lookup_addRecord_some m sn u t r h]; simp
    | none => rw [lookup_addRecord_none m sn u t h]; simp
  · rw [lookup_addRecord_other m sn uid t u hu]
    have : (uid == u) = false := by simp [Ne.symm hu]
    simp [this]

/-! ### Counting-pass lemmas -/

theorem recordPass_nil (g : π → Bool) (candSn candId : π → String) (t : IType)
    (m : Interactions) : recordPass g candSn candId t m [] = m := rfl

theorem recordPass_cons (g : π → Bool) (candSn candId : π → String)
    (t : IType) (m : Interactions) (p : π) (rest : List π) :
    recordPass g candSn candId t m (p :: rest) =
      recordPass g candSn candId t (recordStep g candSn candId t m p) rest := rfl

theorem getCount_recordStep (g : π → Bool) (candSn candId : π → String)
    (t : IType) (m : Interactions) (p : π) (u : String) (s : IType) :
    getCount (recordStep g candSn candId t m p) u s =
      getCount m u s + (if g p = true ∧ candId p = u ∧ s = t then 1 else 0) := by
  rw [recordStep]
  by_cases hg : g p
  · rw [if_pos hg, getCount_addRecord]
    by_cases hi : candId p = u
    · subst hi
      simp [hg]
    · simp [hg, hi, Ne.symm hi]
  · rw [if_neg hg]
    simp [hg]

theorem getCount_recordPass (g : π → Bool) (candSn candId : π → String)
    (t : IType) (posts : List π) (m : Interactions) (u : String) (s : IType) :
    getCount (recordPass g candSn candId t m posts) u s =
      getCount m u s +
        (if s = t then posts.countP (fun p => g p && (candId p == u)) else 0) := by
  induction posts generalizing m with
  | nil => simp [recordPass_nil]
  | cons p rest ih =>
    rw [recordPass_cons, ih, getCount_recordStep, List.countP_cons]
    by_cases hg : g p = true <;> by_cases hi : candId p = u <;>
      by_cases hs : s = t <;> simp [hg, hi, hs] <;> omega

theorem sumCount_recordStep (g : π → Bool) (candSn candId : π → String)
    (t : IType) (m : Interactions) (p : π) (s : IType) :
    sumCount (recordStep g candSn candId t m p) s =
      sumCount m s + (if g p = true ∧ s = t then 1 else 0) := by
  rw [recordStep]
  by_cases hg : g p
  · rw [if_pos hg, sumCount_addRecord]
    simp [hg]
  · rw [if_neg hg]
    simp [hg]

theorem sumCount_recordPass (g : π → Bool) (candSn candId : π → String)
    (t : IType) (posts : List π) (m : Interactions) (s : IType) :
    sumCount (recordPass g candSn candId t m posts) s =
      sumCount m s + (if s = t then posts.countP g else 0) := by
  induction posts generalizing m with
  | nil => simp [recordPass_nil]
  | cons p rest ih =>
    rw [recordPass_cons, ih, sumCount_recordStep, List.countP_cons]
    by_cases hg : g p = true <;> by_cases hs : s = t <;> simp [hg, hs] <;> omega

theorem isSome_recordStep (g : π → Bool) (candSn candId : π → String)
    (t : IType) (m : Interactions) (p : π) (u : String) :
    ((recordStep g candSn candId t m p).lookup u).isSome =
      ((m.lookup u).isSome || (g p && (candId p == u))) := by
  rw [recordStep]
  by_cases hg : g p
  · rw [if_pos hg, isSome_addRecord]
    simp [hg]
  · rw [if_neg hg]
    simp [hg]

theorem isSome_recordPass (g : π → Bool) (candSn candId : π → String)
    (t : IType) (posts : List π) (m : Interactions) (u : String) :
    ((recordPass g candSn candId t m posts).lookup u).isSome =
      ((m.lookup u).isSome || posts.any (fun p => g p && (candId p == u))) := by
  induction posts generalizing m with
  | nil => simp [recordPass_nil]
  | cons p rest ih =>
    rw [recordPass_cons, ih, isSome_recordStep, List.any_cons]
    cases (m.lookup u).isSome <;> simp [Bool.or_assoc]

/-! ### Closed forms for the whole recording phase -/

/-- The final count of each type for key `u` is the number of accepted items
of that type whose candidate id is `u`. -/
theorem getCount_build (sn : String) (fl : List String) (ms : List SimplePost)
    (tl : List TimelinePost) (lk : List SimplePost) (u : String) (s : IType) :
    getCount (buildInteractions sn fl ms tl lk) u s =
      match s with
      | .mention => ms.countP (fun p => mentionGuard sn fl p && (p.user.id_str == u))
      | .reply => tl.countP (fun p =>
          replyGuard sn fl p && (p.in_reply_to_user_id_str.getD "" == u))
      | .retweet => tl.countP (fun p =>
          retweetGuard sn fl p && (((rtUser p).map (fun v => v.id_str)).getD "" == u))
      | .like => lk.countP (fun p => likeGuard sn fl p && (p.user.id_str == u)) := by
  simp only [buildInteractions, countMentions, countReplies, countRetweets,
    countLikes]
  rw [getCount_recordPass, getCount_recordPass, getCount_recordPass,
    getCount_recordPass]
  cases s <;> simp [getCount]

/-- The total of each count type over the final mapping is the number of
accepted items of that type. -/
theorem sumCount_build (sn : String) (fl : List String) (ms : List SimplePost)
    (tl : List TimelinePost) (lk : List SimplePost) (s : IType) :
    sumCount (buildInteractions sn fl ms tl lk) s =
      match s with
      | .mention => ms.countP (mentionGuard sn fl)
      | .reply => tl.countP (replyGuard sn fl)
      | .retweet => tl.countP (retweetGuard sn fl)
      | .like => lk.countP (likeGuard sn fl) := by
  simp only [buildInteractions, countMentions, countReplies, countRetweets,
    countLikes]
  rw [sumCount_recordPass, sumCount_recordPass, sumCount_recordPass,
    sumCount_recordPass]
  cases s <;> simp [sumCount]

/-- A key is present in the final mapping exactly when some accepted item has
that candidate id. -/
theorem isSome_build (sn : String) (fl : List String) (ms : List SimplePost)
    (tl : List TimelinePost) (lk : List SimplePost) (u : String) :
    ((buildInteractions sn fl ms tl lk).lookup u).isSome =
      (ms.any (fun p => mentionGuard sn fl p && (p.user.id_str == u))
       || tl.any (fun p =>
            replyGuard sn fl p && (p.in_reply_to_user_id_str.getD "" == u))
       || tl.any (fun p =>
            retweetGuard sn fl p && (((rtUser p).map (fun v => v.id_str)).getD "" == u))
       || lk.any (fun p => likeGuard sn fl p && (p.user.id_str == u))) := by
  simp only [buildInteractions, countMentions, countReplies, countRetweets,
    countLikes]
  rw [isSome_recordPass, isSome_recordPass, isSome_recordPass, isSome_recordPass]
  simp [Bool.or_assoc]

/-- One pass changes the count of `(u, s)` by exactly its contribution. -/
theorem getCount_applyPass (sn : String) (fl : List String)
    (ms : List SimplePost) (tl : List TimelinePost) (lk : List SimplePost)
    (m : Interactions) (p : Pass) (u : String) (s : IType) :
    getCount (applyPass sn fl ms tl lk m p) u s =
      getCount m u s + passContribution sn fl ms tl lk u s p := by
  cases p <;>
    simp only [applyPass, passContribution, countMentions, countReplies,
      countRetweets, countLikes] <;>
    rw [getCount_recordPass]

/-- One pass adds key `u` exactly when it accepts an item with that id. -/
theorem isSome_applyPass (sn : String) (fl : List String)
    (ms : List SimplePost) (tl : List TimelinePost) (lk : List SimplePost)
    (m : Interactions) (p : Pass) (u : String) :
    ((applyPass sn fl ms tl lk m p).lookup u).isSome =
      ((m.lookup u).isSome || passHasKey sn fl ms tl lk u p) := by
  cases p <;>
    simp only [applyPass, passHasKey, countMentions, countReplies,
      countRetweets, countLikes] <;>
    rw [isSome_recordPass]

/-- Counts of a build in an arbitrary pass order: the sum of the
contributions of the passes run. -/
theorem getCount_buildInOrder (sn : String) (fl : List String)
    (ms : List SimplePost) (tl : List TimelinePost) (lk : List SimplePost)
    (order : List Pass) (u : String) (s : IType) :
    getCount (buildInOrder sn fl ms tl lk order) u s =
      (order.map (passContribution sn fl ms tl lk u s)).sum := by
  rw [buildInOrder]
  have key : ∀ (o : List Pass) (m : Interactions),
      getCount (o.foldl (applyPass sn fl ms tl lk) m) u s =
        getCount m u s + (o.map (passContribution sn fl ms tl lk u s)).sum := by
    intro o
    induction o with
    | nil => intro m; simp
    | cons p rest ih =>
      intro m
      rw [List.foldl_cons, ih, getCount_applyPass, List.map_cons,
        List.sum_cons]
      omega
  rw [key]
  simp [getCount]

/-- Keys of a build in an arbitrary pass order: present exactly when some
pass run accepts an item with that id. -/
theorem isSome_buildInOrder (sn : String) (fl : List String)
    (ms : List SimplePost) (tl : List TimelinePost) (lk : List SimplePost)
    (order : List Pass) (u : String) :
    ((buildInOrder sn fl ms tl lk order).lookup u).isSome =
      order.any (passHasKey sn fl ms tl lk u) := by
  rw [buildInOrder]
  have key : ∀ (o : List Pass) (m : Interactions),
      ((o.foldl (applyPass sn fl ms tl lk) m).lookup u).isSome =
        ((m.lookup u).isSome || o.any (passHasKey sn fl ms tl lk u)) := by
    intro o
    induction o with
    | nil => intro m; simp
    | cons p rest ih =>
      intro m
      rw [List.foldl_cons, ih, isSome_applyPass, List.any_cons]
      cases (m.lookup u).isSome <;> simp [Bool.or_assoc]
  rw [key]
  simp

/-- The source's build is the ordered build at the source pass order. -/
theorem buildInteractions_eq_buildInOrder (sn : String) (fl : List String)
    (ms : List SimplePost) (tl : List TimelinePost) (lk : List SimplePost) :
    buildInteractions sn fl ms tl lk =
      buildInOrder sn fl ms tl lk [.mention, .reply, .retweet, .like] := rfl

/-! ### General list helpers -/

theorem take_append_drop_take (n k : Nat) (l : List α) :
    l.take n ++ (l.drop n).take k = l.take (n + k) := by
  induction n generalizing l with
  | zero => simp
  | succ m ih =>
    cases l with
    | nil => simp
    | cons a rest => simp [List.take_succ_cons, List.drop_succ_cons,
        Nat.succ_add, ih]

theorem mem_zip_map (f : α → β) (l : List α) :
    ∀ p ∈ l.zip (l.map f), p.2 = f p.1 := by
  induction l with
  | nil => intro p hp; simp at hp
  | cons a rest ih =>
    intro p hp
    rw [List.map_cons, List.zip_cons_cons, List.mem_cons] at hp
    rcases hp with rfl | hp
    · rfl
    · exact ih p hp

theorem any_perm (f : α → Bool) {l1 l2 : List α} (h : l1.Perm l2) :
    l1.any f = l2.any f := by
  rw [Bool.eq_iff_iff, List.any_eq_true, List.any_eq_true]
  constructor
  · rintro ⟨x, hx, hf⟩
    exact ⟨x, h.mem_iff.mp hx, hf⟩
  · rintro ⟨x, hx, hf⟩
    exact ⟨x, h.mem_iff.mpr hx, hf⟩

/-! ### Claim theorems -/

/-- C4: every tally entry's total equals
`like*0.5 + reply*1.0 + retweet*1.5 + mention*2.0` for the record it was
computed from, and the record `{like: 2, reply: 1, retweet: 0, mention: 0}`
scores exactly 2. -/
theorem claim_c4_weighted_scoring :
    (∀ (m : Interactions) (t : Tally), t ∈ makeTally m →
      ∃ kv ∈ m, t.total = (kv.2.like : ℚ) * (1 / 2) + (kv.2.reply : ℚ) * 1
        + (kv.2.retweet : ℚ) * (3 / 2) + (kv.2.mention : ℚ) * 2)
    ∧ scoreTotal { screen_name := "x", id := "x", reply := 1,
                   retweet := 0, like := 2, mention := 0 } = 2 := by
  constructor
  · intro m t ht
    simp only [makeTally, List.mem_map] at ht
    obtain ⟨kv, hkv, rfl⟩ := ht
    refine ⟨kv, hkv, ?_⟩
    rw [scoreTotal]
    ring
  · rw [scoreTotal]
    norm_num

/-- Witness for C4 at a concrete record with 2 likes and 1 reply. -/
theorem claim_c4_weighted_scoring_witness :
    ∃ kv ∈ ([("1", recA)] : Interactions),
      ({ id := "1", screen_name := "u1", total := scoreTotal recA } : Tally).total
        = (kv.2.like : ℚ) * (1 / 2) + (kv.2.reply : ℚ) * 1
          + (kv.2.retweet : ℚ) * (3 / 2) + (kv.2.mention : ℚ) * 2 :=
  claim_c4_weighted_scoring.1 [("1", recA)] _ (by simp [makeTally, recA])

/-- C8 fails as stated: with the subject handle supplied as `Alice` and a
follower mention authored under the handle `alice` — case-insensitively the
subject itself, hence not an eligible non-self item — the mention counts
still sum to 1, while the number of eligible non-self mention items (handles
compared case-insensitively on both sides) is 0. -/
theorem claim_c8_counterexample :
    sumCount (buildInteractions "Alice" ["1"] [selfMention] [] []) .mention = 1
    ∧ [selfMention].countP (specNonSelfFollower "Alice" ["1"]) = 0 := by
  constructor
  · decide
  · decide

/-- C8 amended: provided the subject's handle is supplied in lowercase, for
each of the four count types the sum of that count over all records of the
final mapping equals the number of eligible (follower), non-self
(case-insensitive on both sides) items of that type in the corresponding
collection, and the per-account count equals the number of such items with
that account id (accumulation without cap, no double counting, no loss). -/
theorem claim_c8_amended_count_conservation (sn : String) (fl : List String)
    (ms : List SimplePost) (tl : List TimelinePost) (lk : List SimplePost)
    (hs : jsToLowerCase sn = sn) :
    (sumCount (buildInteractions sn fl ms tl lk) .mention
        = ms.countP (specNonSelfFollower sn fl)
      ∧ sumCount (buildInteractions sn fl ms tl lk) .reply
        = tl.countP (specReplyItem sn fl)
      ∧ sumCount (buildInteractions sn fl ms tl lk) .retweet
        = tl.countP (specRetweetItem sn fl)
      ∧ sumCount (buildInteractions sn fl ms tl lk) .like
        = lk.countP (specNonSelfFollower sn fl))
    ∧ ∀ u : String,
        getCount (buildInteractions sn fl ms tl lk) u .mention
          = ms.countP (fun p =>
              specNonSelfFollower sn fl p && (p.user.id_str == u)) := by
  have hmg : mentionGuard sn fl = specNonSelfFollower sn fl := by
    funext p
    rw [mentionGuard, specNonSelfFollower, hs]
  have hlg : likeGuard sn fl = specNonSelfFollower sn fl := by
    funext p
    rw [likeGuard, specNonSelfFollower, hs]
  have hrg : replyGuard sn fl = specReplyItem sn fl := by
    funext p
    rw [replyGuard, specReplyItem, hs]
  have hrtg : retweetGuard sn fl = specRetweetItem sn fl := by
    funext p
    rw [retweetGuard, specRetweetItem]
    cases rtUser p <;> simp [hs]
  refine ⟨⟨?_, ?_, ?_, ?_⟩, ?_⟩
  · rw [← hmg]
    exact sumCount_build sn fl ms tl lk .mention
  · rw [← hrg]
    exact sumCount_build sn fl ms tl lk .reply
  · rw [← hrtg]
    exact sumCount_build sn fl ms tl lk .retweet
  · rw [← hlg]
    exact sumCount_build sn fl ms tl lk .like
  · intro u
    rw [← hmg]
    exact getCount_build sn fl ms tl lk u .mention

/-- Witness for C8 amended: lowercase subject `s`, one follower mention by
`bob`; the mention sum is the one accepted item. -/
theorem claim_c8_amended_count_conservation_witness :
    jsToLowerCase "s" = "s"
    ∧ sumCount (buildInteractions "s" ["1"] [mentionBobLower] [] []) .mention
        = [mentionBobLower].countP (specNonSelfFollower "s" ["1"]) :=
  ⟨by decide,
   ((claim_c8_amended_count_conservation "s" ["1"] [mentionBobLower] [] []
      (by decide)).1).1⟩

/-- C10: when the account already has a record, `addRecord` increments only
the given count and leaves `screen_name`, `id` and the other three counts
unchanged (in particular the stored `screen_name` stays the one from the
first qualifying item, whatever handle spelling the new item carries). -/
theorem claim_c10_increment_frame (m : Interactions) (sn uid : String)
    (t : IType) (r : Record) (h : m.lookup uid = some r) :
    (addRecord m sn uid t).lookup uid = some (r.inc t)
    ∧ (r.inc t).screen_name = r.screen_name
    ∧ (r.inc t).id = r.id
    ∧ (r.inc t).count t = r.count t + 1
    ∧ ∀ s : IType, s ≠ t → (r.inc t).count s = r.count s := by
  refine ⟨lookup_addRecord_some m sn uid t r h, screen_name_inc r t,
    id_inc r t, ?_, ?_⟩
  · rw [count_inc]
    simp
  · intro s hs
    rw [count_inc]
    simp [hs]

/-- Witness for C10: a like recorded under a differently-spelled handle
leaves the stored handle and the other counts alone. -/
theorem claim_c10_increment_frame_witness :
    ((addRecord [("1", recA)] "OTHER" "1" .like).lookup "1"
        = some (recA.inc .like)
      ∧ (recA.inc .like).screen_name = recA.screen_name
      ∧ (recA.inc .like).id = recA.id
      ∧ (recA.inc .like).count .like = recA.count .like + 1
      ∧ ∀ s : IType, s ≠ .like → (recA.inc .like).count s = recA.count s) :=
  claim_c10_increment_frame [("1", recA)] "OTHER" "1" .like recA (by decide)

/-- C9: avatar attachment pairs each entry with the batch result for its id:
present ids get their image, absent ids get `none`, and no entry is lost. -/
theorem claim_c9_avatar_optional (head : List Tally)
    (avatars : List (String × String)) :
    (attachAvatars head avatars).length = head.length
    ∧ ∀ p ∈ head.zip (attachAvatars head avatars),
        p.2.id = p.1.id ∧ p.2.screen_name = p.1.screen_name
        ∧ p.2.total = p.1.total
        ∧ (∀ img, avatars.lookup p.1.id = some img → p.2.avatar = some img)
        ∧ (avatars.lookup p.1.id = none → p.2.avatar = none) := by
  constructor
  · simp [attachAvatars]
  · intro p hp
    have h2 : p.2 = { id := p.1.id, screen_name := p.1.screen_name,
                      total := p.1.total, avatar := avatars.lookup p.1.id } :=
      mem_zip_map _ head p hp
    rw [h2]
    exact ⟨rfl, rfl, rfl, fun img h => by rw [h], fun h => by rw [h]⟩

/-- Witness for C9: id `a` is in the avatar mapping and gets its image; id
`b` is absent and gets `none`. -/
theorem claim_c9_avatar_optional_witness :
    ({ id := "a", screen_name := "a", total := 3,
       avatar := some "IMG" } : Enriched).avatar = some "IMG"
    ∧ ({ id := "b", screen_name := "b", total := 7,
         avatar := none } : Enriched).avatar = none :=
  ⟨((claim_c9_avatar_optional [tallyA, tallyB] [("a", "IMG")]).2
      (tallyA, { id := "a", screen_name := "a", total := 3,
                 avatar := some "IMG" })
      (by simp [attachAvatars, tallyA, tallyB, List.lookup_cons])).2.2.2.1 "IMG" (by decide),
   ((claim_c9_avatar_optional [tallyA, tallyB] [("a", "IMG")]).2
      (tallyB, { id := "b", screen_name := "b", total := 7, avatar := none })
      (by simp [attachAvatars, tallyA, tallyB, List.lookup_cons])).2.2.2.2 (by decide)⟩

/-- C5: the ranker's output is the first `maxCount = sum(layers)` entries of
a descending-sorted (by total) arrangement of the tally entries: it is
pairwise sorted descending, its length is `maxCount` clamped by the number of
available entries, it equals `full.take maxCount` for some sorted permutation
`full` of the tally, and when `maxCount` is at least the number of entries
the output is exactly the available entries (as a permutation; no error, no
padding). -/
theorem claim_c5_rank_truncate (tally : List Tally) (layers : List Nat) :
    (rankTruncate tally layers).Pairwise (fun a b => b.total ≤ a.total)
    ∧ (rankTruncate tally layers).length = min (maxCountOf layers) tally.length
    ∧ (∃ full : List Tally, full.Perm tally
        ∧ full.Pairwise (fun a b : Tally => b.total ≤ a.total)
        ∧ rankTruncate tally layers = full.take (maxCountOf layers))
    ∧ (tally.length ≤ maxCountOf layers →
        (rankTruncate tally layers).Perm tally) := by
  have htrans : ∀ (a b c : Tally),
      descTotal a b → descTotal b c → descTotal a c := by
    intro a b c hab hbc
    simp only [descTotal, decide_eq_true_eq] at *
    exact le_trans hbc hab
  have htotal : ∀ (a b : Tally), descTotal a b || descTotal b a := by
    intro a b
    simp only [descTotal, Bool.or_eq_true, decide_eq_true_eq]
    exact le_total b.total a.total
  have hs : (tally.mergeSort descTotal).Pairwise (fun a b => descTotal a b) :=
    List.sorted_mergeSort htrans htotal tally
  have hsp : (tally.mergeSort descTotal).Pairwise
      (fun a b : Tally => b.total ≤ a.total) :=
    hs.imp (fun h => by simpa [descTotal] using h)
  refine ⟨?_, ?_, ?_, ?_⟩
  · exact List.Pairwise.sublist (List.take_sublist _ _) hsp
  · simp [rankTruncate]
  · exact ⟨tally.mergeSort descTotal, List.mergeSort_perm tally descTotal,
      hsp, rfl⟩
  · intro h
    rw [rankTruncate, List.take_of_length_le (by simpa using h)]
    exact List.mergeSort_perm tally descTotal

/-- Witness for C5: two entries, `maxCount = 3` exceeds them, all entries are
returned. -/
theorem claim_c5_rank_truncate_witness :
    [tallyA, tallyB].length ≤ maxCountOf [3]
    ∧ (rankTruncate [tallyA, tallyB] [3]).Perm [tallyA, tallyB] :=
  ⟨by decide, (claim_c5_rank_truncate [tallyA, tallyB] [3]).2.2.2 (by decide)⟩

/-- C6: each of the three layers receives its requested size clamped by what
remains of the ranked sequence (down to empty, never an error); with 3
available entries and `layers = [1, 2, 2]` the layers hold 1, 2 and 0
entries. -/
theorem claim_c6_layer_exhaustion (head : List Enriched) (layers : List Nat) :
    (splitLayers head layers).map List.length =
      [min (layers.getD 0 0) head.length,
       min (layers.getD 1 0) (head.length - layers.getD 0 0),
       min (layers.getD 2 0) (head.length - layers.getD 0 0 - layers.getD 1 0)]
    ∧ (splitLayers [enr "x", enr "y", enr "z"] [1, 2, 2]).map List.length
        = [1, 2, 0] := by
  constructor
  · simp [splitLayers, splice]
    omega
  · decide

/-- C2 fails as stated: a Layer Request of length 1 still yields 3 layers,
not 1. -/
theorem claim_c2_counterexample :
    (splitLayers [enr "x"] [1]).length = 3
    ∧ (splitLayers [enr "x"] [1]).length ≠ 1 := by
  constructor
  · rfl
  · decide

/-- C2 amended: the partitioner always produces exactly three layers,
consuming `layers[0]`, `layers[1]`, `layers[2]` entries (0 for a missing
size) from the front of the remaining ranked sequence, in order; together the
layers are an initial segment of the ranked sequence. -/
theorem claim_c2_amended_three_layers (head : List Enriched)
    (layers : List Nat) :
    (splitLayers head layers).length = 3
    ∧ splitLayers head layers =
        [head.take (layers.getD 0 0),
         (head.drop (layers.getD 0 0)).take (layers.getD 1 0),
         ((head.drop (layers.getD 0 0)).drop (layers.getD 1 0)).take
           (layers.getD 2 0)]
    ∧ (splitLayers head layers).flatten =
        head.take (layers.getD 0 0 + (layers.getD 1 0 + layers.getD 2 0)) := by
  refine ⟨rfl, rfl, ?_⟩
  simp only [splitLayers, splice, List.flatten_cons, List.flatten_nil,
    List.append_nil]
  rw [take_append_drop_take, take_append_drop_take]

/-- C1 fails as stated: with the subject handle supplied as `Alice`, a
mention whose author handle `alice` is case-insensitively equal to it is
recorded anyway — the code lowercases only the candidate's handle before the
comparison, so the rule does not hold for every casing of the subject's
handle. -/
theorem claim_c1_counterexample :
    jsToLowerCase selfMention.user.screen_name = jsToLowerCase "Alice"
    ∧ ((countMentions [] [selfMention] "Alice" ["1"]).lookup "1").isSome
        = true := by
  constructor
  · decide
  · decide

/-- C1 amended: provided the subject's handle is supplied in lowercase (it
equals its own `toLower`), an item whose candidate handle is
case-insensitively equal to the subject's handle is skipped by each of the
four passes and contributes nothing to the mapping, for every casing of the
candidate's handle. -/
theorem claim_c1_amended_self_skip (sn : String) (fl : List String)
    (m : Interactions) (hs : jsToLowerCase sn = sn) :
    (∀ (post : SimplePost) (rest : List SimplePost),
        jsToLowerCase post.user.screen_name = jsToLowerCase sn →
        countMentions m (post :: rest) sn fl = countMentions m rest sn fl)
    ∧ (∀ (post : SimplePost) (rest : List SimplePost),
        jsToLowerCase post.user.screen_name = jsToLowerCase sn →
        countLikes m (post :: rest) sn fl = countLikes m rest sn fl)
    ∧ (∀ (post : TimelinePost) (rest : List TimelinePost),
        jsToLowerCase post.in_reply_to_screen_name = jsToLowerCase sn →
        countReplies m (post :: rest) sn fl = countReplies m rest sn fl)
    ∧ (∀ (post : TimelinePost) (rest : List TimelinePost) (u : UserObj),
        rtUser post = some u → jsToLowerCase u.screen_name = jsToLowerCase sn →
        countRetweets m (post :: rest) sn fl = countRetweets m rest sn fl) := by
  have hbe : ∀ c : String, jsToLowerCase c = jsToLowerCase sn →
      (jsToLowerCase c != sn) = false := by
    intro c hc
    rw [hc, hs]
    simp
  refine ⟨?_, ?_, ?_, ?_⟩
  · intro post rest hpost
    have hg : mentionGuard sn fl post = false := by
      rw [mentionGuard, hbe _ hpost, Bool.false_and]
    rw [countMentions, countMentions, recordPass_cons, recordStep, hg]
    simp
  · intro post rest hpost
    have hg : likeGuard sn fl post = false := by
      rw [likeGuard, hbe _ hpost, Bool.false_and]
    rw [countLikes, countLikes, recordPass_cons, recordStep, hg]
    simp
  · intro post rest hpost
    have hg : replyGuard sn fl post = false := by
      rw [replyGuard, hbe _ hpost]
      simp
    rw [countReplies, countReplies, recordPass_cons, recordStep, hg]
    simp
  · intro post rest u hu hpost
    have hg : retweetGuard sn fl post = false := by
      simp only [retweetGuard, hu]
      rw [hbe _ hpost, Bool.false_and]
    rw [countRetweets, countRetweets, recordPass_cons, recordStep, hg]
    simp

/-- Witness for C1 amended: subject `alice` (lowercase), candidate `ALICE`
skipped by the mention pass. -/
theorem claim_c1_amended_self_skip_witness :
    jsToLowerCase "alice" = "alice"
    ∧ countMentions [] [mentionSelfCased] "alice" ["1"]
        = countMentions [] [] "alice" ["1"] :=
  ⟨by decide,
   (claim_c1_amended_self_skip "alice" ["1"] [] (by decide)).1
     mentionSelfCased [] (by decide)⟩

/-- C3 fails as stated: swapping two mention items that carry different
spellings of the same author's handle changes the stored `screen_name` of
that account's record, so item order can change a field of the final
mapping. -/
theorem claim_c3_counterexample :
    (buildInteractions "s" ["1"] [mentionBobLower, mentionBobUpper] [] []).lookup "1"
      ≠ (buildInteractions "s" ["1"] [mentionBobUpper, mentionBobLower] [] []).lookup "1" := by
  decide

/-- C3 amended: processing the four collections in any order (any
permutation of the four passes), and the items within each collection in any
order, yields a final mapping with the same key set and the same four counts
for every record as the source-order build; only the stored `screen_name`
can depend on processing order (it comes from the first qualifying item
processed). -/
theorem claim_c3_amended_order_independence (sn : String) (fl : List String)
    (ms ms2 : List SimplePost) (tl tl2 : List TimelinePost)
    (lk lk2 : List SimplePost) (order : List Pass)
    (horder : order.Perm [.mention, .reply, .retweet, .like])
    (hm : ms.Perm ms2) (ht : tl.Perm tl2) (hl : lk.Perm lk2) (u : String) :
    (((buildInOrder sn fl ms tl lk order).lookup u).isSome
        = ((buildInteractions sn fl ms2 tl2 lk2).lookup u).isSome)
    ∧ ∀ s : IType, getCount (buildInOrder sn fl ms tl lk order) u s
        = getCount (buildInteractions sn fl ms2 tl2 lk2) u s := by
  constructor
  · rw [isSome_buildInOrder, any_perm _ horder, isSome_build]
    rw [← any_perm _ hm, ← any_perm _ ht, ← any_perm _ ht, ← any_perm _ hl]
    simp only [List.any_cons, List.any_nil, passHasKey]
    cases ms.any (fun p => mentionGuard sn fl p && (p.user.id_str == u)) <;>
      cases tl.any (fun p =>
        replyGuard sn fl p && (p.in_reply_to_user_id_str.getD "" == u)) <;>
      cases tl.any (fun p =>
        retweetGuard sn fl p
          && (((rtUser p).map (fun v => v.id_str)).getD "" == u)) <;>
      cases lk.any (fun p => likeGuard sn fl p && (p.user.id_str == u)) <;>
      simp
  · intro s
    rw [getCount_buildInOrder, (horder.map _).sum_eq, getCount_build]
    simp only [List.map_cons, List.map_nil, List.sum_cons, List.sum_nil,
      passContribution]
    cases s
    · simpa using List.Perm.countP_eq _ ht
    · simpa using List.Perm.countP_eq _ ht
    · simpa using List.Perm.countP_eq _ hl
    · simpa using List.Perm.countP_eq _ hm

/-- Witness for C3 amended: a fully different pass order (likes, retweets,
replies, mentions) on item-permuted collections agrees with the source
build. -/
theorem claim_c3_amended_order_independence_witness :
    getCount (buildInOrder "s" ["1"] [mentionBobLower, mentionBobUpper] [] []
        [Pass.like, .retweet, .reply, .mention]) "1" .mention
      = getCount (buildInteractions "s" ["1"]
          [mentionBobUpper, mentionBobLower] [] []) "1" .mention :=
  (claim_c3_amended_order_independence "s" ["1"]
    [mentionBobLower, mentionBobUpper] [mentionBobUpper, mentionBobLower]
    [] [] [] [] [Pass.like, .retweet, .reply, .mention] (by decide)
    (List.Perm.swap _ _ _) (List.Perm.refl _) (List.Perm.refl _)
    "1").2 .mention

/-- C7: an account id that is not in the follower set never appears as a key
of the final mapping, whatever it authored: every key passed all four
passes' follower gate. -/
theorem claim_c7_eligibility_gate (sn : String) (fl : List String)
    (ms : List SimplePost) (tl : List TimelinePost) (lk : List SimplePost)
    (u : String)
    (h : ((buildInteractions sn fl ms tl lk).lookup u).isSome = true) :
    fl.contains u = true := by
  rw [isSome_build] at h
  simp only [Bool.or_eq_true, List.any_eq_true, Bool.and_eq_true,
    beq_iff_eq, or_assoc] at h
  rcases h with h | h | h | h
  · obtain ⟨p, hp, hg, hid⟩ := h
    rw [mentionGuard, Bool.and_eq_true] at hg
    rw [← hid]
    exact hg.2
  · obtain ⟨p, hp, hg, hid⟩ := h
    rw [replyGuard, Bool.and_eq_true, Bool.and_eq_true] at hg
    rw [← hid]
    exact hg.2
  · obtain ⟨p, hp, hg, hid⟩ := h
    cases hrt : rtUser p with
    | none => simp [retweetGuard, hrt] at hg
    | some v =>
      simp only [retweetGuard, hrt, Bool.and_eq_true] at hg
      rw [hrt] at hid
      simp only [Option.map_some', Option.getD_some] at hid
      rw [← hid]
      exact hg.2
  · obtain ⟨p, hp, hg, hid⟩ := h
    rw [likeGuard, Bool.and_eq_true] at hg
    rw [← hid]
    exact hg.2

/-- Witness for C7: with follower set `{1}` and one mention by account 1, the
key `1` of the mapping is a follower. -/
theorem claim_c7_eligibility_gate_witness :
    (["1"] : List String).contains "1" = true :=
  claim_c7_eligibility_gate "s" ["1"] [mentionBobLower] [] [] "1" (by decide)

end TwitterCircles
